import Mathlib

/-
  Verification of the ViGi agent core (camera_monitor.py, utils/media.py, main.py)
  against its natural-language specification.

  Shallow embedding conventions:
  * Python floats are embedded as rationals (ℚ); `int(x)` is truncation toward zero.
  * The per-iteration behaviour of `CameraMonitor.run` (camera_monitor.py lines
    97-140) is a step function on an explicit state, driven by a trace of read
    events; `while True:` exits only through `break` (error budget) or an
    uncaught exception, so a trace that runs out of events leaves the loop
    conceptually still running (`ExitKind.input_exhausted`).
  * Fallible Python code (attribute lookups that can raise, division by zero)
    is embedded with `Except`.
-/

namespace ViGi

/-! ## utils/media.py -/

/-- Python `int()` applied to a numeric value: truncation toward zero. -/
def pyInt (x : ℚ) : Int := if 0 ≤ x then Int.floor x else Int.ceil x

/-- The dictionary returned by `read_video_file_meta` (media.py lines 21-27). -/
structure VideoMeta where
  frame_width : Int
  frame_height : Int
  fps : ℚ
  frame_count : Int
  duration : Int
deriving DecidableEq

/-- Embeds `read_video_file_meta` (media.py lines 5-27).  `opened` is the result
of `cap.isOpened()`; `w h fps fc` are the raw property values reported by the
capture device.  The function returns `Except.ok none` when the file cannot be
opened (the Python `return None`), raises `ZeroDivisionError` when
`int(frame_count / fps)` divides by a zero fps (the division on line 17 is
unguarded), and otherwise returns the metadata dictionary. -/
def read_video_file_meta (opened : Bool) (w h fps fc : ℚ) :
    Except String (Option VideoMeta) :=
  if !opened then Except.ok none
  else if fps = 0 then Except.error ("ZeroDivisionError")
  else
    Except.ok (some
      { frame_width := pyInt w
        frame_height := pyInt h
        fps := fps
        frame_count := pyInt fc
        duration := pyInt ((pyInt fc : ℚ) / fps) })

/-! ## CameraMonitor.current_fps (camera_monitor.py lines 52-63) -/

/-- The attribute store of a `CameraMonitor` instance as far as `current_fps`
reads it.  `camera_fps` is assigned in `run` (line 94: `self.camera_fps = ...`).
`fps` models the attribute `self.fps`: no statement anywhere in the source
assigns it (only `self.fps_calculator` and `self.camera_fps` exist), so in
every real execution it is absent (`none`). -/
structure CameraAttrs where
  camera_fps : ℚ
  fps : Option ℚ
deriving DecidableEq

/-- The attribute store produced by `__init__` plus the assignments in `run`
(lines 92-94): `camera_fps` is set, `self.fps` is never assigned. -/
def init_attrs (camera_fps : ℚ) : CameraAttrs :=
  { camera_fps := camera_fps, fps := none }

/-- Embeds `current_fps` (lines 52-63).  `estimate` is the value returned by
`self.fps_calculator.current_fps()` (None while fewer than two samples exist).
When the estimate is absent, the code first evaluates the f-string
`f"... = {self.fps}"` on line 60, which looks up the attribute `self.fps`:
if that attribute is absent the lookup raises `AttributeError`; only
afterwards would `fps = self.camera_fps` run (line 61). -/
def current_fps (estimate : Option ℚ) (a : CameraAttrs) : Except String ℚ :=
  match estimate with
  | some f => Except.ok f
  | none =>
    match a.fps with
    | none => Except.error ("AttributeError")
    | some _ => Except.ok a.camera_fps

/-! ## VideoRecorder collaborator contract -/

/-- Modelled from the spec: the VideoRecorder collaborator (its source is not
part of the verified files) exposes exactly the methods named in the contract
of section 4.5: `start_recording(width, height, fps)`, `add_frame(frame)`,
`end_recording()`, `is_recording() -> bool`. -/
def video_recorder_methods : List String :=
  ["start_recording", "add_frame", "end_recording", "is_recording"]

/-- The attribute name used by the stop call on camera_monitor.py line 131,
`self.video_recorder.еnd_recording()`.  Its first letter is U+0435 (CYRILLIC
SMALL LETTER IE), not the ASCII `e` of the contract method `end_recording`. -/
def called_stop_method : String := "еnd_recording"

/-- `is_recording()` of the recorder, modelled from the spec contract: true
while at least one recording session is active; `active` counts the sessions
currently open (a `start_recording` opens one, an `end_recording` closes one). -/
def is_recording (active : Nat) : Bool := active != 0

/-! ## CameraMonitor run loop (camera_monitor.py lines 82-140) -/

/-- One loop iteration's input: the result of `camera.read()` (line 99).  For a
successful read, `motion_now` is the motion flag the detector reports for this
frame (`is_motion_detected()`, with the callback firing on an idle→active
transition, per the MotionDetector contract of spec section 4.5), and `fps` is
the value `self.current_fps()` returns at this instant.  Iterations in which
the callback fires are modelled under the assumption that the FPS estimator
already has an estimate, so `current_fps` returns normally; the underflow
case is treated separately by `current_fps` above. -/
inductive ReadEvent where
  | fail : ReadEvent
  | ok : Bool → ℚ → ReadEvent
deriving DecidableEq

/-- How one iteration ends: continue looping, `break` out of the loop
(line 112), or an uncaught exception from the defective stop call (line 131). -/
inductive StepExit where
  | cont : StepExit
  | brk : StepExit
  | crash : StepExit
deriving DecidableEq

/-- How a whole execution of `run` ends. `input_exhausted` means the event
trace ended while the `while True:` loop was still running. -/
inductive ExitKind where
  | open_failed : ExitKind
  | budget : ExitKind
  | crashed : ExitKind
  | input_exhausted : ExitKind
deriving DecidableEq

/-- The mutable state of one `CameraMonitor` between iterations:
`motion` is the detector's current flag, `recorder_active` the number of open
recorder sessions, `add_frames` the field `self.add_frames` (a float once the
callback assigned `seconds * fps` to it), `error_count` the local counter of
line 97. -/
structure MonitorState where
  motion : Bool
  recorder_active : Nat
  add_frames : ℚ
  error_count : Nat
deriving DecidableEq

/-- Observable effects of one iteration.  `stop_attempted` records that the
iteration reached the stop call on line 131; `sent_to_recorder` that
`add_frame` (line 136) ran; `err_after` the error counter after the iteration;
`rec_after` the number of open recorder sessions after the iteration. -/
structure IterOut where
  success : Bool
  published : Bool
  started : Bool
  stop_attempted : Bool
  sent_to_recorder : Bool
  err_after : Nat
  rec_after : Nat
deriving DecidableEq

/-- Result of `motion_callback` (lines 65-80): the new `self.add_frames`, the
recorder session count afterwards, and whether `start_recording` was emitted.
Line 68 assigns `add_frames = add_seconds_after_motion * current_fps()` before
the `is_recording` guard of line 70, so the countdown is reset on every
callback; a new session starts only when none is active. -/
structure CallbackResult where
  add_frames : ℚ
  recorder_active : Nat
  started : Bool
deriving DecidableEq

/-- Embeds `motion_callback` (camera_monitor.py lines 65-80). -/
def motion_callback (add_seconds_after_motion fps : ℚ) (recorder_active : Nat) :
    CallbackResult :=
  if is_recording recorder_active then
    { add_frames := add_seconds_after_motion * fps
      recorder_active := recorder_active
      started := false }
  else
    { add_frames := add_seconds_after_motion * fps
      recorder_active := recorder_active + 1
      started := true }

/-- One iteration of the `while True:` loop (lines 98-137).
On a failed read (lines 100-116): increment the error counter, `break` once it
reaches `max_errors`, otherwise sleep and `continue` (nothing is published).
On a successful read (lines 118-137): reset the error counter, run the
detector (the callback fires exactly on an idle→active transition), publish
the frame, then if motion is inactive and a session is active decrement
`add_frames`; when it reaches ≤ 0 the code evaluates
`self.video_recorder.еnd_recording` — an attribute the recorder does not have
(see `called_stop_method`), so the iteration raises instead of completing;
otherwise `add_frame` runs unconditionally. -/
def monitorStep (max_errors : Nat) (add_seconds_after_motion : ℚ)
    (s : MonitorState) : ReadEvent → MonitorState × IterOut × StepExit
  | ReadEvent.fail =>
    ({ s with error_count := s.error_count + 1 },
     { success := false, published := false, started := false,
       stop_attempted := false, sent_to_recorder := false,
       err_after := s.error_count + 1, rec_after := s.recorder_active },
     if max_errors ≤ s.error_count + 1 then StepExit.brk else StepExit.cont)
  | ReadEvent.ok motion_now fps =>
    let cb : CallbackResult :=
      if !s.motion && motion_now then
        motion_callback add_seconds_after_motion fps s.recorder_active
      else
        { add_frames := s.add_frames, recorder_active := s.recorder_active,
          started := false }
    if !motion_now && is_recording cb.recorder_active then
      if cb.add_frames - 1 ≤ 0 then
        (⟨motion_now, cb.recorder_active, cb.add_frames - 1, 0⟩,
         { success := true, published := true, started := cb.started,
           stop_attempted := true, sent_to_recorder := false,
           err_after := 0, rec_after := cb.recorder_active },
         StepExit.crash)
      else
        (⟨motion_now, cb.recorder_active, cb.add_frames - 1, 0⟩,
         { success := true, published := true, started := cb.started,
           stop_attempted := false, sent_to_recorder := true,
           err_after := 0, rec_after := cb.recorder_active },
         StepExit.cont)
    else
      (⟨motion_now, cb.recorder_active, cb.add_frames, 0⟩,
       { success := true, published := true, started := cb.started,
         stop_attempted := false, sent_to_recorder := true,
         err_after := 0, rec_after := cb.recorder_active },
       StepExit.cont)

/-- The outcome of a whole execution of `run`: final state, how the loop
ended, how many times `camera.release()` (line 140) ran, and the per-iteration
log.  Line 140 is reached only by falling out of the loop through `break`;
it is not in a `finally`, so a crash skips it. -/
structure RunResult where
  final : MonitorState
  exitk : ExitKind
  releases : Nat
  log : List IterOut
deriving DecidableEq

/-- The state at line 97: no motion seen, no session open, `add_frames = 0`
(set in `__init__`, line 50), `error_count = 0`. -/
def initState : MonitorState := ⟨false, 0, 0, 0⟩

/-- Runs the `while True:` loop (lines 98-140) over a trace of read events. -/
def runLoop (max_errors : Nat) (add_seconds_after_motion : ℚ) :
    MonitorState → List ReadEvent → RunResult
  | s, [] => ⟨s, ExitKind.input_exhausted, 0, []⟩
  | s, e :: es =>
    let st := monitorStep max_errors add_seconds_after_motion s e
    match st.2.2 with
    | StepExit.brk => ⟨st.1, ExitKind.budget, 1, [st.2.1]⟩
    | StepExit.crash => ⟨st.1, ExitKind.crashed, 0, [st.2.1]⟩
    | StepExit.cont =>
      let r := runLoop max_errors add_seconds_after_motion st.1 es
      ⟨r.final, r.exitk, r.releases, st.2.1 :: r.log⟩

/-- Embeds `CameraMonitor.run` (lines 82-140).  `openOk` is the result of
`camera.isOpened()` (line 86); when it is false the method logs and returns
at line 90 — before the loop and before any `release()`.  Each monitor's
execution is a pure function of its own inputs: no state is shared between
two `run` evaluations, mirroring the one-thread-per-camera isolation. -/
def run (max_errors : Nat) (add_seconds_after_motion : ℚ) (openOk : Bool)
    (events : List ReadEvent) : RunResult :=
  if openOk then runLoop max_errors add_seconds_after_motion initState events
  else ⟨initState, ExitKind.open_failed, 0, []⟩

/-! ## Helper lemmas -/

/-- Unfolding `runLoop` on a cons whose step breaks out of the loop. -/
lemma runLoop_cons_brk (maxE : Nat) (secs : ℚ) (s : MonitorState) (e : ReadEvent)
    (es : List ReadEvent) (h : (monitorStep maxE secs s e).2.2 = StepExit.brk) :
    runLoop maxE secs s (e :: es) =
      ⟨(monitorStep maxE secs s e).1, ExitKind.budget, 1,
       [(monitorStep maxE secs s e).2.1]⟩ := by
  simp only [runLoop]
  rw [h]

/-- Unfolding `runLoop` on a cons whose step continues the loop. -/
lemma runLoop_cons_cont (maxE : Nat) (secs : ℚ) (s : MonitorState) (e : ReadEvent)
    (es : List ReadEvent) (h : (monitorStep maxE secs s e).2.2 = StepExit.cont) :
    runLoop maxE secs s (e :: es) =
      ⟨(runLoop maxE secs (monitorStep maxE secs s e).1 es).final,
       (runLoop maxE secs (monitorStep maxE secs s e).1 es).exitk,
       (runLoop maxE secs (monitorStep maxE secs s e).1 es).releases,
       (monitorStep maxE secs s e).2.1 ::
         (runLoop maxE secs (monitorStep maxE secs s e).1 es).log⟩ := by
  simp only [runLoop]
  rw [h]

/-- A successful iteration reports a zero error counter in its log entry. -/
lemma step_out_err (maxE : Nat) (secs : ℚ) (s : MonitorState) (e : ReadEvent) :
    (monitorStep maxE secs s e).2.1.success = true →
      (monitorStep maxE secs s e).2.1.err_after = 0 := by
  cases e with
  | fail => intro h; simp [monitorStep] at h
  | ok m f =>
    intro h
    simp only [monitorStep]
    repeat' split
    all_goals rfl

/-- Along any trace, every successful log entry reports a zero error counter. -/
lemma log_success_err (maxE : Nat) (secs : ℚ) :
    ∀ (events : List ReadEvent) (s : MonitorState),
      ∀ o ∈ (runLoop maxE secs s events).log, o.success = true → o.err_after = 0 := by
  intro events
  induction events with
  | nil => intro s o ho; simp [runLoop] at ho
  | cons e es ih =>
    intro s o ho hsucc
    simp only [runLoop] at ho
    cases hx : (monitorStep maxE secs s e).2.2 with
    | brk =>
      rw [hx] at ho
      simp at ho
      subst ho
      exact step_out_err maxE secs s e hsucc
    | crash =>
      rw [hx] at ho
      simp at ho
      subst ho
      exact step_out_err maxE secs s e hsucc
    | cont =>
      rw [hx] at ho
      simp at ho
      rcases ho with rfl | ho
      · exact step_out_err maxE secs s e hsucc
      · exact ih _ o ho hsucc

/-- One iteration cannot raise the recorder session count above one: a new
session is started only when none is active (the guard of line 70). -/
lemma step_rec_le (maxE : Nat) (secs : ℚ) (s : MonitorState) (e : ReadEvent)
    (hs : s.recorder_active ≤ 1) :
    (monitorStep maxE secs s e).1.recorder_active ≤ 1
    ∧ (monitorStep maxE secs s e).2.1.rec_after ≤ 1 := by
  cases e with
  | fail => simpa [monitorStep] using hs
  | ok m f =>
    simp only [monitorStep]
    repeat' split
    all_goals simp_all [motion_callback, is_recording]
    all_goals split_ifs <;> simp_all

/-- Along any trace from a state with at most one open session, every log
entry reports at most one open session. -/
lemma log_rec_le (maxE : Nat) (secs : ℚ) :
    ∀ (events : List ReadEvent) (s : MonitorState), s.recorder_active ≤ 1 →
      ∀ o ∈ (runLoop maxE secs s events).log, o.rec_after ≤ 1 := by
  intro events
  induction events with
  | nil => intro s hs o ho; simp [runLoop] at ho
  | cons e es ih =>
    intro s hs o ho
    simp only [runLoop] at ho
    cases hx : (monitorStep maxE secs s e).2.2 with
    | brk =>
      rw [hx] at ho
      simp at ho
      subst ho
      exact (step_rec_le maxE secs s e hs).2
    | crash =>
      rw [hx] at ho
      simp at ho
      subst ho
      exact (step_rec_le maxE secs s e hs).2
    | cont =>
      rw [hx] at ho
      simp at ho
      rcases ho with rfl | ho
      · exact (step_rec_le maxE secs s e hs).2
      · exact ih _ (step_rec_le maxE secs s e hs).1 o ho

/-- Feeding `k` consecutive failed reads into a loop whose error budget has
exactly `k` steps left makes it break out with one `release()`, a log of `k`
entries, and nothing published or read during them. -/
lemma runLoop_fail_budget (maxE : Nat) (secs : ℚ) (rest : List ReadEvent) :
    ∀ (k : Nat) (s : MonitorState), 0 < k → s.error_count + k = maxE →
      (runLoop maxE secs s (List.replicate k ReadEvent.fail ++ rest)).exitk = ExitKind.budget
      ∧ (runLoop maxE secs s (List.replicate k ReadEvent.fail ++ rest)).releases = 1
      ∧ (runLoop maxE secs s (List.replicate k ReadEvent.fail ++ rest)).log.length = k
      ∧ ∀ o ∈ (runLoop maxE secs s (List.replicate k ReadEvent.fail ++ rest)).log,
          o.published = false ∧ o.success = false := by
  intro k
  induction k with
  | zero => intro s h0; omega
  | succ n ih =>
    intro s hpos hsum
    rw [List.replicate_succ, List.cons_append]
    cases n with
    | zero =>
      have hb : (monitorStep maxE secs s ReadEvent.fail).2.2 = StepExit.brk := by
        simp [monitorStep]; omega
      rw [runLoop_cons_brk maxE secs s ReadEvent.fail _ hb]
      refine ⟨rfl, rfl, rfl, ?_⟩
      intro o ho
      simp at ho
      subst ho
      exact ⟨rfl, rfl⟩
    | succ m =>
      have hb : (monitorStep maxE secs s ReadEvent.fail).2.2 = StepExit.cont := by
        simp [monitorStep]; omega
      rw [runLoop_cons_cont maxE secs s ReadEvent.fail _ hb]
      have hec : (monitorStep maxE secs s ReadEvent.fail).1.error_count
          = s.error_count + 1 := by
        simp [monitorStep]
      have ih2 := ih (monitorStep maxE secs s ReadEvent.fail).1 (by omega) (by omega)
      refine ⟨ih2.1, ih2.2.1, ?_, ?_⟩
      · simp [ih2.2.2.1]
      · intro o ho
        simp at ho
        rcases ho with rfl | ho
        · exact ⟨rfl, rfl⟩
        · exact ih2.2.2.2 o ho

/-- A successful iteration either runs `add_frame` (line 136) or raises at the
defective stop call (line 131) before reaching it. -/
lemma step_sent_or_crash (maxE : Nat) (secs f : ℚ) (s : MonitorState) (m : Bool) :
    (monitorStep maxE secs s (ReadEvent.ok m f)).2.1.sent_to_recorder = true
    ∨ (monitorStep maxE secs s (ReadEvent.ok m f)).2.2 = StepExit.crash := by
  simp only [monitorStep]
  repeat' split
  all_goals simp

/-! ## Claim theorems -/

/-- C1: the claim says `stop()` signals loop termination, the stop signal is
checked once per loop iteration, and `release()` runs on every exit path
(normal stop, fatal open failure, exhausted error budget).  The code has no
stop mechanism at all — `CameraMonitor` defines no `stop()` although
`graceful_exit` in main.py calls it, and the loop is `while True:` with no
stop check, so a trace of successful reads never terminates the loop
(`input_exhausted`, no `release()`) — and on a fatal open failure `run`
returns at line 90 without calling `release()`. -/
theorem stop_signal_missing :
    (run 50 3 false [ReadEvent.ok false 10]).releases = 0
    ∧ (run 50 3 false [ReadEvent.ok false 10]).exitk = ExitKind.open_failed
    ∧ (run 50 3 true (List.replicate 25 (ReadEvent.ok false 10))).exitk
        = ExitKind.input_exhausted
    ∧ (run 50 3 true (List.replicate 25 (ReadEvent.ok false 10))).releases = 0 := by
  refine ⟨rfl, rfl, ?_, ?_⟩ <;>
    norm_num [run, runLoop, monitorStep, motion_callback, is_recording, initState,
      List.replicate]

/-- C2: the claim says that when the FPS estimator has no estimate yet,
`current_fps()` returns the camera's nominal FPS and never raises.  In the
code the fallback branch first evaluates the f-string `{self.fps}` on
line 60, and no code path assigns `self.fps`, so the attribute lookup raises
`AttributeError` instead; only when an estimate exists is it returned. -/
theorem current_fps_underflow_crash :
    current_fps none (init_attrs 30) = Except.error ("AttributeError")
    ∧ ∀ (f : ℚ) (a : CameraAttrs), current_fps (some f) a = Except.ok f :=
  ⟨rfl, fun _ _ => rfl⟩

/-- C3: the claim says each no-motion frame of an active session decrements
the padding counter and that `end_recording` is invoked when it reaches zero
(30 frames for `post_motion_seconds = 3`, fps 10).  The countdown is as
claimed: after the motion frame sets the counter to 3 × 10 = 30, 29 draining
frames leave it at 1 with the loop still running, and the 30th draining frame
is the first to reach the stop call.  But that call is
`self.video_recorder.еnd_recording()` (line 131) whose first letter is
Cyrillic U+0435 — a name the recorder contract does not provide — so the run
crashes with `AttributeError` (skipping `release()`) instead of telling the
recorder to stop. -/
theorem drain_countdown_crashes_at_stop :
    (video_recorder_methods.contains called_stop_method) = false
    ∧ (runLoop 50 3 initState
        (ReadEvent.ok true 10 :: List.replicate 29 (ReadEvent.ok false 10))).final.add_frames
        = 1
    ∧ (runLoop 50 3 initState
        (ReadEvent.ok true 10 :: List.replicate 29 (ReadEvent.ok false 10))).exitk
        = ExitKind.input_exhausted
    ∧ (runLoop 50 3 initState
        (ReadEvent.ok true 10 :: List.replicate 30 (ReadEvent.ok false 10))).log.map
          IterOut.stop_attempted
        = List.replicate 30 false ++ [true]
    ∧ (runLoop 50 3 initState
        (ReadEvent.ok true 10 :: List.replicate 30 (ReadEvent.ok false 10))).exitk
        = ExitKind.crashed
    ∧ (runLoop 50 3 initState
        (ReadEvent.ok true 10 :: List.replicate 30 (ReadEvent.ok false 10))).releases
        = 0 := by
  constructor
  · decide
  norm_num [runLoop, monitorStep, motion_callback, is_recording, initState,
    List.replicate]

/-- C4 counterexample: motion triggers while the estimate is 10, the estimate
is 20 when motion deactivates.  Were the counter computed at drain start from
the then-current estimate, the first draining frame would leave it at
3 × 20 − 1; instead it is 3 × 10 − 1 = 29, because line 68 computed it inside
`motion_callback` at the idle→active transition. -/
theorem padding_uses_trigger_fps_cex :
    (runLoop 50 3 initState
      [ReadEvent.ok true 10, ReadEvent.ok false 20]).final.add_frames = 29
    ∧ decide ((runLoop 50 3 initState
        [ReadEvent.ok true 10, ReadEvent.ok false 20]).final.add_frames
          = 3 * 20 - 1) = false := by
  constructor <;>
    norm_num [runLoop, monitorStep, motion_callback, is_recording, initState]

/-- C4 (amended): the padding counter is computed on each idle→active motion
transition, inside `motion_callback` (line 68), as
`add_seconds_after_motion × current_fps()` with the estimate current at that
transition; it is not recomputed at drain start nor mid-drain — frames with
motion inactive only decrement it (or leave it unchanged when no session is
active), independently of the current FPS estimate, and frames with motion
still active leave it unchanged. -/
theorem padding_set_at_motion_transition (maxE : Nat) (secs f : ℚ) (s : MonitorState) :
    (s.motion = false →
      (monitorStep maxE secs s (ReadEvent.ok true f)).1.add_frames = secs * f)
    ∧ (s.motion = true →
      (monitorStep maxE secs s (ReadEvent.ok true f)).1.add_frames = s.add_frames)
    ∧ (monitorStep maxE secs s (ReadEvent.ok false f)).1.add_frames
        = (if is_recording s.recorder_active then s.add_frames - 1
           else s.add_frames) := by
  refine ⟨?_, ?_, ?_⟩
  · intro hm
    simp only [monitorStep, hm]
    repeat' split
    all_goals simp_all [motion_callback]
    all_goals split <;> rfl
  · intro hm
    simp [monitorStep, hm]
  · simp only [monitorStep]
    repeat' split
    all_goals simp_all

/-- Witness for C4's amended theorem at a concrete draining session. -/
theorem padding_set_at_motion_transition_witness :
    (monitorStep 50 3 (MonitorState.mk false 1 7 0) (ReadEvent.ok true 10)).1.add_frames
      = 3 * 10 :=
  (padding_set_at_motion_transition 50 3 10 ⟨false, 1, 7, 0⟩).1 rfl

/-- C5: along every trace from the initial state, every iteration reports at
most one open recording session; and a motion re-trigger (idle→active
transition) while a session is active emits no second `start_recording`,
leaves the session count unchanged, resets the padding countdown to
`add_seconds_after_motion × fps`, and neither reaches the stop call nor ends
the iteration abnormally — so a session interrupted by re-triggered motion
before its countdown expires continues seamlessly. -/
theorem single_active_session (maxE : Nat) (secs f : ℚ) (events : List ReadEvent)
    (s : MonitorState) (hm : s.motion = false)
    (hrec : is_recording s.recorder_active = true) :
    (∀ o ∈ (runLoop maxE secs initState events).log, o.rec_after ≤ 1)
    ∧ (monitorStep maxE secs s (ReadEvent.ok true f)).2.1.started = false
    ∧ (monitorStep maxE secs s (ReadEvent.ok true f)).1.recorder_active
        = s.recorder_active
    ∧ (monitorStep maxE secs s (ReadEvent.ok true f)).1.add_frames = secs * f
    ∧ (monitorStep maxE secs s (ReadEvent.ok true f)).2.1.stop_attempted = false
    ∧ (monitorStep maxE secs s (ReadEvent.ok true f)).2.2 = StepExit.cont := by
  refine ⟨log_rec_le maxE secs events initState (by norm_num [initState]), ?_⟩
  simp [monitorStep, motion_callback, hm, hrec]

/-- Witness for C5 at a concrete active session being re-triggered. -/
theorem single_active_session_witness :
    (monitorStep 50 3 (MonitorState.mk false 1 5 0) (ReadEvent.ok true 10)).2.1.started
      = false
    ∧ (monitorStep 50 3 (MonitorState.mk false 1 5 0)
        (ReadEvent.ok true 10)).1.recorder_active = 1 :=
  ⟨(single_active_session 50 3 10 [] ⟨false, 1, 5, 0⟩ rfl rfl).2.1,
   (single_active_session 50 3 10 [] ⟨false, 1, 5, 0⟩ rfl rfl).2.2.1⟩

/-- C6: the consecutive-error counter is reset to zero by every successful
read (line 119): after any successful step the state's counter is zero, and
along any trace every successful log entry reports a zero counter. -/
theorem error_counter_zero_after_success (maxE : Nat) (secs : ℚ) (s : MonitorState)
    (events : List ReadEvent) :
    (∀ (m : Bool) (f : ℚ),
      (monitorStep maxE secs s (ReadEvent.ok m f)).1.error_count = 0)
    ∧ ∀ o ∈ (runLoop maxE secs s events).log, o.success = true → o.err_after = 0 := by
  constructor
  · intro m f
    simp only [monitorStep]
    repeat' split
    all_goals rfl
  · exact log_success_err maxE secs events s

/-- Witness for C6 at a concrete successful read. -/
theorem error_counter_zero_after_success_witness :
    (monitorStep 50 3 initState (ReadEvent.ok false 10)).1.error_count = 0
    ∧ (monitorStep 50 3 initState (ReadEvent.ok false 10)).2.1.err_after = 0 := by
  constructor
  · exact (error_counter_zero_after_success 50 3 initState []).1 false 10
  · exact (error_counter_zero_after_success 50 3 initState [ReadEvent.ok false 10]).2
      (monitorStep 50 3 initState (ReadEvent.ok false 10)).2.1
      (by rw [runLoop_cons_cont 50 3 initState (ReadEvent.ok false 10) [] (by decide)]
          simp)
      rfl

/-- C7: starting with a clean error counter, `max_errors` consecutive failed
reads terminate the loop through the error budget (line 112), `release()`
(line 140) runs exactly once, exactly those `max_errors` iterations are
observed (any later events are never read), and none of them publishes a
frame. -/
theorem max_errors_budget_termination (max_errors : Nat) (secs : ℚ)
    (s : MonitorState) (rest : List ReadEvent) (h0 : s.error_count = 0)
    (h1 : 0 < max_errors) :
    (runLoop max_errors secs s
      (List.replicate max_errors ReadEvent.fail ++ rest)).exitk = ExitKind.budget
    ∧ (runLoop max_errors secs s
        (List.replicate max_errors ReadEvent.fail ++ rest)).releases = 1
    ∧ (runLoop max_errors secs s
        (List.replicate max_errors ReadEvent.fail ++ rest)).log.length = max_errors
    ∧ ∀ o ∈ (runLoop max_errors secs s
        (List.replicate max_errors ReadEvent.fail ++ rest)).log,
          o.published = false := by
  have h := runLoop_fail_budget max_errors secs rest max_errors s h1 (by omega)
  exact ⟨h.1, h.2.1, h.2.2.1, fun o ho => (h.2.2.2 o ho).1⟩

/-- Witness for C7: the spec's end-to-end scenario with `max_errors = 5`. -/
theorem max_errors_budget_termination_witness :
    (runLoop 5 3 initState (List.replicate 5 ReadEvent.fail ++ [])).exitk
      = ExitKind.budget
    ∧ (runLoop 5 3 initState (List.replicate 5 ReadEvent.fail ++ [])).releases = 1 :=
  ⟨(max_errors_budget_termination 5 3 initState [] rfl (by norm_num)).1,
   (max_errors_budget_termination 5 3 initState [] rfl (by norm_num)).2.1⟩

/-- C8 counterexample: from the initial state (no active session) a
successful no-motion frame is still forwarded to the recorder — `add_frame`
(line 136) runs unconditionally, refuting "when no session is active, the
recorder receives no frame for that iteration". -/
theorem add_frame_without_session_cex :
    is_recording initState.recorder_active = false
    ∧ (monitorStep 50 3 initState (ReadEvent.ok false 10)).2.1.sent_to_recorder = true
    ∧ (monitorStep 50 3 initState (ReadEvent.ok false 10)).2.1.success = true :=
  ⟨rfl, rfl, rfl⟩

/-- C8 (amended): every successfully read frame that completes its iteration
(i.e. does not raise at the defective stop call) is forwarded to the recorder
via `add_frame`, whether or not a session is active — selection is delegated
to the recorder (comment on lines 133-135) — and a failed read forwards
nothing. -/
theorem add_frame_unconditional (maxE : Nat) (secs f : ℚ) (s : MonitorState)
    (m : Bool)
    (h : (monitorStep maxE secs s (ReadEvent.ok m f)).2.2 ≠ StepExit.crash) :
    (monitorStep maxE secs s (ReadEvent.ok m f)).2.1.sent_to_recorder = true
    ∧ (monitorStep maxE secs s ReadEvent.fail).2.1.sent_to_recorder = false := by
  refine ⟨?_, rfl⟩
  rcases step_sent_or_crash maxE secs f s m with hs | hc
  · exact hs
  · exact absurd hc h

/-- Witness for C8's amended theorem at a concrete frame with no session. -/
theorem add_frame_unconditional_witness :
    (monitorStep 50 3 initState (ReadEvent.ok false 10)).2.1.sent_to_recorder
      = true :=
  (add_frame_unconditional 50 3 10 initState false (by decide)).1

/-- C9: when the capture device cannot be opened, `run` returns at line 90:
the loop is never entered (no events consumed, empty log), no retry happens,
and `release()` is never called.  `run` is a pure function of one monitor's
own inputs, so this failure cannot affect any other monitor instance. -/
theorem open_failure_no_retry_no_release (max_errors : Nat) (secs : ℚ)
    (events : List ReadEvent) :
    run max_errors secs false events = ⟨initState, ExitKind.open_failed, 0, []⟩ :=
  rfl

/-- C10: `read_video_file_meta` returns `None` when the file cannot be
opened; otherwise, provided the reported fps is nonzero, it returns the
dictionary with `frame_width`, `frame_height`, `fps`, `frame_count`, and
`duration = int(frame_count / fps)`; with fps = 0 the unguarded division on
line 17 raises. -/
theorem read_video_file_meta_spec (w h fps fc : ℚ) (hfps : fps ≠ 0) :
    read_video_file_meta false w h fps fc = Except.ok none
    ∧ read_video_file_meta true w h fps fc
        = Except.ok (some ⟨pyInt w, pyInt h, fps, pyInt fc,
            pyInt ((pyInt fc : ℚ) / fps)⟩)
    ∧ read_video_file_meta true w h 0 fc = Except.error ("ZeroDivisionError") := by
  refine ⟨rfl, ?_, by simp [read_video_file_meta]⟩
  simp [read_video_file_meta, hfps]

/-- Witness for C10 at a concrete video: 100 frames at 25 fps last 4 s. -/
theorem read_video_file_meta_spec_witness :
    read_video_file_meta true 640 480 25 100
      = Except.ok (some ⟨640, 480, 25, 100, 4⟩) := by
  have h := (read_video_file_meta_spec 640 480 25 100 (by norm_num)).2.1
  rw [h]
  norm_num [pyInt]

end ViGi
